import Mathlib

/-!
# Verification of the boardgame-app OAuth client (frontend App component)

Shallow embedding of the React single-page client in `App.tsx`: the component
state (apiInfo, protectedData, userInfo, loading, error, authToken), the
browser environment it touches (localStorage, the URL query string, the
history API, navigation), and the five operations `checkAuthStatus`,
`fetchApiInfo`, `fetchUserInfo`, `handleLogin`, `handleLogout`,
`fetchProtectedData`.

Modelling choices:
* Each async operation is a pure function from the current world state and the
  outcome of its network call (success payload, Axios error with message and
  optional HTTP status, or non-Axios error) to a `Run`: the sequence of world
  states after each primitive effect, plus the list of HTTP requests issued.
* The un-awaited `handleLogout()` call made on a 401 inside `fetchUserInfo`
  is modelled as running to completion inside the catch block; the real
  interleaving (logout suspends at its await and resumes after the finally
  of the caller) orders two of the updates differently but yields the same
  final state and the same set of requests.
* Reads of React state inside an operation are modelled as reads of the
  current world state, and `setX` as an immediate update.
* JavaScript truthiness on strings (the guards `if (tokenFromUrl)`,
  `if (!tokenToUse)`, `if (!authToken)`, `authToken ? ... : ...`) is modelled
  by `truthy`, which is false on `none` and on the empty string.
* localStorage is an association list over string keys; `URLSearchParams` over
  the query string is an association list as well, with `get` returning the
  first binding.
-/

/-- Response shape of `GET /api/info` (interface ApiInfo). -/
structure ApiInfo where
  app_name : String
  description : String
  authentication : String
  allowed_emails : Nat
deriving DecidableEq, Repr

/-- Response shape of `GET /api/protected` (interface ProtectedData). -/
structure ProtectedData where
  message : String
  data : String
  user_email : String
  game_access : Bool
  auth_method : String
deriving DecidableEq, Repr

/-- Response shape of `GET /auth/user` (interface UserInfo). -/
structure UserInfo where
  email : String
  name : String
  picture : Option String
  authenticated : Bool
  token_issuer : Option String
deriving DecidableEq, Repr

/-- Response shape of `GET /auth/login` (interface AuthResponse). -/
structure AuthResponse where
  authorization_url : String
  state : String
deriving DecidableEq, Repr

/-- Outcome of one axios call: success with a payload, an `AxiosError` with a
message and the optional HTTP status of its response, or a non-Axios error. -/
inductive FetchResult (α : Type) where
  | ok (d : α)
  | axiosErr (m : String) (status : Option Nat)
  | otherErr
deriving DecidableEq, Repr

/-- An HTTP request issued by the client: method, URL, and the bearer token
carried in the Authorization header, if any. -/
structure Request where
  method : String
  url : String
  bearer : Option String
deriving DecidableEq, Repr

/-- JavaScript truthiness of a nullable string: null and the empty string are
falsy. -/
def truthy : Option String → Bool
  | none => false
  | some s => s != ""

/-- `localStorage.getItem` / `URLSearchParams.get`: first binding of the key. -/
def getItem (s : List (String × String)) (k : String) : Option String :=
  (s.find? (fun kv => kv.1 == k)).map Prod.snd

/-- `localStorage.setItem`: replace any binding of the key. -/
def setItem (s : List (String × String)) (k v : String) : List (String × String) :=
  (s.filter (fun kv => kv.1 != k)) ++ [(k, v)]

/-- `localStorage.removeItem`: drop all bindings of the key. -/
def removeItem (s : List (String × String)) (k : String) : List (String × String) :=
  s.filter (fun kv => kv.1 != k)

theorem find?_filter_out_ne (t : List (String × String)) (k k' : String)
    (h : k' ≠ k) :
    (t.filter (fun kv => kv.1 != k)).find? (fun kv => kv.1 == k') =
      t.find? (fun kv => kv.1 == k') := by
  induction t with
  | nil => simp
  | cons a t ih =>
    by_cases ha : a.1 = k
    · have ha' : (a.1 == k') = false := by
        simp [ha]
        exact Ne.symm h
      have hkk : (k == k') = false := by
        simp
        exact Ne.symm h
      simp [List.filter_cons, ha, List.find?_cons, ha', ih, hkk]
    · by_cases hk : a.1 = k'
      · simp [List.filter_cons, ha, List.find?_cons, hk, h]
      · simp [List.filter_cons, ha, List.find?_cons, hk, ih]

theorem getItem_setItem_self (s : List (String × String)) (k v : String) :
    getItem (setItem s k v) k = some v := by
  have hnone : (s.filter (fun kv => kv.1 != k)).find? (fun kv => kv.1 == k) = none := by
    rw [List.find?_eq_none]
    intro x hx
    have := List.of_mem_filter hx
    simpa using this
  simp [getItem, setItem, List.find?_append, hnone]

theorem getItem_setItem_ne (s : List (String × String)) (k v k' : String)
    (h : k' ≠ k) : getItem (setItem s k v) k' = getItem s k' := by
  have hk : (k == k') = false := by
    simp
    exact Ne.symm h
  simp [getItem, setItem, List.find?_append, find?_filter_out_ne s k k' h, hk]

theorem getItem_removeItem_self (s : List (String × String)) (k : String) :
    getItem (removeItem s k) k = none := by
  have hnone : (s.filter (fun kv => kv.1 != k)).find? (fun kv => kv.1 == k) = none := by
    rw [List.find?_eq_none]
    intro x hx
    have := List.of_mem_filter hx
    simpa using this
  simp [getItem, removeItem, hnone]

theorem getItem_removeItem_ne (s : List (String × String)) (k k' : String)
    (h : k' ≠ k) : getItem (removeItem s k) k' = getItem s k' := by
  simp [getItem, removeItem, find?_filter_out_ne s k k' h]

/-- The world the component acts on: the six `useState` fields of `App`, the
localStorage contents, the location (pathname and parsed query string), and
the pending navigation target set by assigning `window.location.href`. -/
structure World where
  apiInfo : Option ApiInfo
  protectedData : Option ProtectedData
  userInfo : Option UserInfo
  loading : Bool
  error : Option String
  authToken : Option String
  storage : List (String × String)
  pathname : String
  query : List (String × String)
  redirect : Option String
deriving DecidableEq, Repr

/-- One run of an operation: the world states after each primitive effect, in
order, and the HTTP requests issued. -/
structure Run where
  states : List World
  requests : List Request
deriving DecidableEq, Repr

/-- The world after a run, starting from `w` (a run with no effects leaves `w`
unchanged). -/
def runFinal (w : World) (r : Run) : World :=
  r.states.getLastD w

def API_BASE_URL : String := "http://localhost:8000"

/-- `fetchApiInfo`: GET `/api/info`; on success store the payload, on failure
set the error message; loading is set around the call. -/
def fetchApiInfo (w : World) (r : FetchResult ApiInfo) : Run :=
  let w1 := { w with loading := true }
  let w2 := { w1 with error := none }
  let req : Request :=
    { method := "GET", url := API_BASE_URL ++ "/api/info", bearer := none }
  match r with
  | FetchResult.ok d =>
      let w3 := { w2 with apiInfo := some d }
      let w4 := { w3 with loading := false }
      { states := [w1, w2, w3, w4], requests := [req] }
  | FetchResult.axiosErr m _ =>
      let w3 := { w2 with error := some ("Failed to fetch API info: " ++ m) }
      let w4 := { w3 with loading := false }
      { states := [w1, w2, w3, w4], requests := [req] }
  | FetchResult.otherErr =>
      let w3 := { w2 with error := some "An unexpected error occurred" }
      let w4 := { w3 with loading := false }
      { states := [w1, w2, w3, w4], requests := [req] }

/-- `handleLogout`: POST `/auth/logout` with the bearer header when the token
is truthy; whatever the outcome, the finally block clears the token, user
info and protected data, removes both localStorage keys, and resets loading.
The catch block only logs. -/
def handleLogout (w : World) (_r : FetchResult Unit) : Run :=
  let w1 := { w with loading := true }
  let w2 := { w1 with error := none }
  let req : Request :=
    { method := "POST", url := API_BASE_URL ++ "/auth/logout",
      bearer := if truthy w.authToken then w.authToken else none }
  let w3 := { w2 with authToken := none }
  let w4 := { w3 with userInfo := none }
  let w5 := { w4 with protectedData := none }
  let w6 := { w5 with storage := removeItem w5.storage "auth_token" }
  let w7 := { w6 with storage := removeItem w6.storage "session_id" }
  let w8 := { w7 with loading := false }
  { states := [w1, w2, w3, w4, w5, w6, w7, w8], requests := [req] }

/-- `fetchUserInfo`: use the argument token if truthy, else the state token;
return early when neither is truthy; GET `/auth/user` with the bearer header;
on a 401 AxiosError also run `handleLogout` (with its own outcome). -/
def fetchUserInfo (w : World) (tok : Option String) (r : FetchResult UserInfo)
    (rLogout : FetchResult Unit) : Run :=
  let tokenToUse := if truthy tok then tok else w.authToken
  if truthy tokenToUse then
    let t := tokenToUse.getD ""
    let w1 := { w with loading := true }
    let w2 := { w1 with error := none }
    let req : Request :=
      { method := "GET", url := API_BASE_URL ++ "/auth/user", bearer := some t }
    match r with
    | FetchResult.ok d =>
        let w3 := { w2 with userInfo := some d }
        let w4 := { w3 with loading := false }
        { states := [w1, w2, w3, w4], requests := [req] }
    | FetchResult.axiosErr m st =>
        let w3 := { w2 with error := some ("Failed to fetch user info: " ++ m) }
        if st == some 401 then
          let lr := handleLogout w3 rLogout
          let wL := lr.states.getLastD w3
          let w4 := { wL with loading := false }
          { states := [w1, w2, w3] ++ lr.states ++ [w4],
            requests := req :: lr.requests }
        else
          let w4 := { w3 with loading := false }
          { states := [w1, w2, w3, w4], requests := [req] }
    | FetchResult.otherErr =>
        let w3 := { w2 with error := some "An unexpected error occurred" }
        let w4 := { w3 with loading := false }
        { states := [w1, w2, w3, w4], requests := [req] }
  else
    { states := [], requests := [] }

/-- `handleLogin`: GET `/auth/login`; on success navigate to the returned
authorization URL; on failure set the error message. -/
def handleLogin (w : World) (r : FetchResult AuthResponse) : Run :=
  let w1 := { w with loading := true }
  let w2 := { w1 with error := none }
  let req : Request :=
    { method := "GET", url := API_BASE_URL ++ "/auth/login", bearer := none }
  match r with
  | FetchResult.ok d =>
      let w3 := { w2 with redirect := some d.authorization_url }
      let w4 := { w3 with loading := false }
      { states := [w1, w2, w3, w4], requests := [req] }
  | FetchResult.axiosErr m _ =>
      let w3 := { w2 with error := some ("Failed to initiate login: " ++ m) }
      let w4 := { w3 with loading := false }
      { states := [w1, w2, w3, w4], requests := [req] }
  | FetchResult.otherErr =>
      let w3 := { w2 with error := some "An unexpected error occurred" }
      let w4 := { w3 with loading := false }
      { states := [w1, w2, w3, w4], requests := [req] }

/-- `fetchProtectedData`: refuse with the message when the state token is not
truthy; otherwise GET `/api/protected` with the bearer header. -/
def fetchProtectedData (w : World) (r : FetchResult ProtectedData) : Run :=
  if truthy w.authToken then
    let t := w.authToken.getD ""
    let w1 := { w with loading := true }
    let w2 := { w1 with error := none }
    let req : Request :=
      { method := "GET", url := API_BASE_URL ++ "/api/protected", bearer := some t }
    match r with
    | FetchResult.ok d =>
        let w3 := { w2 with protectedData := some d }
        let w4 := { w3 with loading := false }
        { states := [w1, w2, w3, w4], requests := [req] }
    | FetchResult.axiosErr m _ =>
        let w3 := { w2 with error := some ("Failed to fetch protected data: " ++ m) }
        let w4 := { w3 with loading := false }
        { states := [w1, w2, w3, w4], requests := [req] }
    | FetchResult.otherErr =>
        let w3 := { w2 with error := some "An unexpected error occurred" }
        let w4 := { w3 with loading := false }
        { states := [w1, w2, w3, w4], requests := [req] }
  else
    { states := [{ w with error := some "Please log in first" }], requests := [] }

/-- The synchronous body of `checkAuthStatus` (everything before the triggered
`fetchUserInfo`): returns the updated world and the token passed to
`fetchUserInfo`, when one is. -/
def checkAuthStatusLocal (w : World) : World × Option String :=
  let tokenFromUrl := getItem w.query "token"
  let sessionFromUrl := getItem w.query "session"
  if truthy tokenFromUrl then
    let t := tokenFromUrl.getD ""
    let w1 := { w with authToken := some t }
    let w2 := { w1 with storage := setItem w1.storage "auth_token" t }
    let w3 :=
      if truthy sessionFromUrl then
        { w2 with storage := setItem w2.storage "session_id" (sessionFromUrl.getD "") }
      else w2
    let w4 := { w3 with query := [] }
    (w4, some t)
  else
    let storedToken := getItem w.storage "auth_token"
    if truthy storedToken then
      ({ w with authToken := some (storedToken.getD "") }, storedToken)
    else (w, none)

/-- `checkAuthStatus` including the `fetchUserInfo` it triggers, which needs
an outcome for the user lookup and one for the logout a 401 would trigger. -/
def checkAuthStatus (w : World) (rU : FetchResult UserInfo)
    (rL : FetchResult Unit) : Run :=
  match checkAuthStatusLocal w with
  | (w1, some t) =>
      let fr := fetchUserInfo w1 (some t) rU rL
      { states := w1 :: fr.states, requests := fr.requests }
  | (w1, none) => { states := [w1], requests := [] }

/-- The component state at mount: every `useState` starts at null / false. -/
def initialWorld : World :=
  { apiInfo := none, protectedData := none, userInfo := none, loading := false,
    error := none, authToken := none, storage := [], pathname := "/",
    query := [], redirect := none }

/-- The error message of some state of the run is `msg`. -/
def errorSurfaced (r : Run) (msg : String) : Prop :=
  ∃ s ∈ r.states, s.error = some msg

instance (r : Run) (msg : String) : Decidable (errorSurfaced r msg) := by
  unfold errorSurfaced
  infer_instance

/-- C1: every run of `handleLogout`, whatever the outcome of the backend POST
to `/auth/logout` (success, Axios error of any status, or other error), ends
with the in-memory auth token, user info and protected data null and with the
`auth_token` and `session_id` localStorage keys removed. -/
theorem logout_clears_all_local_state (w : World) (r : FetchResult Unit) :
    (runFinal w (handleLogout w r)).authToken = none ∧
    (runFinal w (handleLogout w r)).userInfo = none ∧
    (runFinal w (handleLogout w r)).protectedData = none ∧
    getItem (runFinal w (handleLogout w r)).storage "auth_token" = none ∧
    getItem (runFinal w (handleLogout w r)).storage "session_id" = none := by
  refine ⟨by simp [handleLogout, runFinal], by simp [handleLogout, runFinal],
    by simp [handleLogout, runFinal], ?_, ?_⟩
  · simp [handleLogout, runFinal]
    rw [getItem_removeItem_ne _ _ _ (by decide), getItem_removeItem_self]
  · simp [handleLogout, runFinal]
    rw [getItem_removeItem_self]

/-- C3: a call to `fetchProtectedData` while the in-memory auth token is null
issues no HTTP request at all (in particular none to `/api/protected`) and
leaves the protected data unchanged. -/
theorem no_token_no_protected_request (w : World) (r : FetchResult ProtectedData)
    (h : w.authToken = none) :
    (fetchProtectedData w r).requests = [] ∧
    (runFinal w (fetchProtectedData w r)).protectedData = w.protectedData := by
  simp [fetchProtectedData, truthy, h, runFinal]

theorem no_token_no_protected_request_witness :
    initialWorld.authToken = none ∧
    ((fetchProtectedData initialWorld FetchResult.otherErr).requests = [] ∧
      (runFinal initialWorld (fetchProtectedData initialWorld FetchResult.otherErr)).protectedData =
        initialWorld.protectedData) :=
  ⟨rfl, no_token_no_protected_request initialWorld FetchResult.otherErr rfl⟩

/-- C9: a call to `fetchProtectedData` while the in-memory auth token is null
only sets the error message to "Please log in first": protected data, user
info, auth token, the loading flag and the localStorage contents are
unchanged, and no request is issued. -/
theorem no_token_protected_frame (w : World) (r : FetchResult ProtectedData)
    (h : w.authToken = none) :
    (fetchProtectedData w r).states = [{ w with error := some "Please log in first" }] ∧
    (fetchProtectedData w r).requests = [] ∧
    (runFinal w (fetchProtectedData w r)).error = some "Please log in first" ∧
    (runFinal w (fetchProtectedData w r)).protectedData = w.protectedData ∧
    (runFinal w (fetchProtectedData w r)).userInfo = w.userInfo ∧
    (runFinal w (fetchProtectedData w r)).authToken = w.authToken ∧
    (runFinal w (fetchProtectedData w r)).loading = w.loading ∧
    (runFinal w (fetchProtectedData w r)).storage = w.storage := by
  simp [fetchProtectedData, truthy, h, runFinal]

theorem no_token_protected_frame_witness :
    ({ initialWorld with loading := true, storage := [("session_id", "z")] } : World).authToken = none ∧
    ((fetchProtectedData { initialWorld with loading := true, storage := [("session_id", "z")] }
        (FetchResult.axiosErr "x" none)).states =
      [{ { initialWorld with loading := true, storage := [("session_id", "z")] } with
          error := some "Please log in first" }] ∧
      (fetchProtectedData { initialWorld with loading := true, storage := [("session_id", "z")] }
        (FetchResult.axiosErr "x" none)).requests = [] ∧
      (runFinal { initialWorld with loading := true, storage := [("session_id", "z")] }
        (fetchProtectedData { initialWorld with loading := true, storage := [("session_id", "z")] }
          (FetchResult.axiosErr "x" none))).error = some "Please log in first" ∧
      (runFinal { initialWorld with loading := true, storage := [("session_id", "z")] }
        (fetchProtectedData { initialWorld with loading := true, storage := [("session_id", "z")] }
          (FetchResult.axiosErr "x" none))).protectedData =
        ({ initialWorld with loading := true, storage := [("session_id", "z")] } : World).protectedData ∧
      (runFinal { initialWorld with loading := true, storage := [("session_id", "z")] }
        (fetchProtectedData { initialWorld with loading := true, storage := [("session_id", "z")] }
          (FetchResult.axiosErr "x" none))).userInfo =
        ({ initialWorld with loading := true, storage := [("session_id", "z")] } : World).userInfo ∧
      (runFinal { initialWorld with loading := true, storage := [("session_id", "z")] }
        (fetchProtectedData { initialWorld with loading := true, storage := [("session_id", "z")] }
          (FetchResult.axiosErr "x" none))).authToken =
        ({ initialWorld with loading := true, storage := [("session_id", "z")] } : World).authToken ∧
      (runFinal { initialWorld with loading := true, storage := [("session_id", "z")] }
        (fetchProtectedData { initialWorld with loading := true, storage := [("session_id", "z")] }
          (FetchResult.axiosErr "x" none))).loading =
        ({ initialWorld with loading := true, storage := [("session_id", "z")] } : World).loading ∧
      (runFinal { initialWorld with loading := true, storage := [("session_id", "z")] }
        (fetchProtectedData { initialWorld with loading := true, storage := [("session_id", "z")] }
          (FetchResult.axiosErr "x" none))).storage =
        ({ initialWorld with loading := true, storage := [("session_id", "z")] } : World).storage) :=
  ⟨rfl, no_token_protected_frame
    { initialWorld with loading := true, storage := [("session_id", "z")] }
    (FetchResult.axiosErr "x" none) rfl⟩

/-- C10: each operation that sets the loading flag (`fetchApiInfo` always,
`fetchUserInfo` when a truthy token is available, `handleLogin` and
`handleLogout` always, `fetchProtectedData` when the state token is truthy)
passes through a state with loading true and ends with loading false, for
every outcome of its network call. -/
theorem loading_reset_on_completion (w : World) (rA : FetchResult ApiInfo)
    (rU : FetchResult UserInfo) (rG : FetchResult AuthResponse)
    (rL : FetchResult Unit) (rP : FetchResult ProtectedData) (tok : Option String) :
    ((∃ s ∈ (fetchApiInfo w rA).states, s.loading = true) ∧
      (runFinal w (fetchApiInfo w rA)).loading = false) ∧
    (truthy (if truthy tok then tok else w.authToken) = true →
      (∃ s ∈ (fetchUserInfo w tok rU rL).states, s.loading = true) ∧
      (runFinal w (fetchUserInfo w tok rU rL)).loading = false) ∧
    ((∃ s ∈ (handleLogin w rG).states, s.loading = true) ∧
      (runFinal w (handleLogin w rG)).loading = false) ∧
    ((∃ s ∈ (handleLogout w rL).states, s.loading = true) ∧
      (runFinal w (handleLogout w rL)).loading = false) ∧
    (truthy w.authToken = true →
      (∃ s ∈ (fetchProtectedData w rP).states, s.loading = true) ∧
      (runFinal w (fetchProtectedData w rP)).loading = false) := by
  refine ⟨?_, ?_, ?_, ?_, ?_⟩
  · cases rA <;> exact ⟨⟨{ w with loading := true }, by simp [fetchApiInfo], rfl⟩,
      by simp [fetchApiInfo, runFinal]⟩
  · intro htok
    cases rU with
    | ok d =>
      exact ⟨⟨{ w with loading := true }, by simp [fetchUserInfo, htok], rfl⟩,
        by simp [fetchUserInfo, htok, runFinal]⟩
    | axiosErr m st =>
      by_cases h401 : (st == some 401) = true
      · exact ⟨⟨{ w with loading := true }, by simp [fetchUserInfo, htok, h401], rfl⟩,
          by simp [fetchUserInfo, handleLogout, htok, h401, runFinal]⟩
      · exact ⟨⟨{ w with loading := true },
          by simp [fetchUserInfo, htok, Bool.not_eq_true _ ▸ h401], rfl⟩,
          by simp [fetchUserInfo, htok, h401, runFinal]⟩
    | otherErr =>
      exact ⟨⟨{ w with loading := true }, by simp [fetchUserInfo, htok], rfl⟩,
        by simp [fetchUserInfo, htok, runFinal]⟩
  · cases rG <;> exact ⟨⟨{ w with loading := true }, by simp [handleLogin], rfl⟩,
      by simp [handleLogin, runFinal]⟩
  · exact ⟨⟨{ w with loading := true }, by simp [handleLogout], rfl⟩,
      by simp [handleLogout, runFinal]⟩
  · intro htk
    cases rP <;> exact ⟨⟨{ w with loading := true }, by simp [fetchProtectedData, htk], rfl⟩,
      by simp [fetchProtectedData, htk, runFinal]⟩

theorem loading_reset_on_completion_witness :
    truthy (if truthy (some "tk") then some "tk"
      else ({ initialWorld with authToken := some "tk" } : World).authToken) = true ∧
    truthy ({ initialWorld with authToken := some "tk" } : World).authToken = true ∧
    (((∃ s ∈ (fetchApiInfo { initialWorld with authToken := some "tk" }
          FetchResult.otherErr).states, s.loading = true) ∧
      (runFinal { initialWorld with authToken := some "tk" }
        (fetchApiInfo { initialWorld with authToken := some "tk" }
          FetchResult.otherErr)).loading = false) ∧
    (truthy (if truthy (some "tk") then some "tk"
        else ({ initialWorld with authToken := some "tk" } : World).authToken) = true →
      (∃ s ∈ (fetchUserInfo { initialWorld with authToken := some "tk" } (some "tk")
          (FetchResult.axiosErr "e" (some 401)) FetchResult.otherErr).states, s.loading = true) ∧
      (runFinal { initialWorld with authToken := some "tk" }
        (fetchUserInfo { initialWorld with authToken := some "tk" } (some "tk")
          (FetchResult.axiosErr "e" (some 401)) FetchResult.otherErr)).loading = false) ∧
    ((∃ s ∈ (handleLogin { initialWorld with authToken := some "tk" }
        FetchResult.otherErr).states, s.loading = true) ∧
      (runFinal { initialWorld with authToken := some "tk" }
        (handleLogin { initialWorld with authToken := some "tk" }
          FetchResult.otherErr)).loading = false) ∧
    ((∃ s ∈ (handleLogout { initialWorld with authToken := some "tk" }
        FetchResult.otherErr).states, s.loading = true) ∧
      (runFinal { initialWorld with authToken := some "tk" }
        (handleLogout { initialWorld with authToken := some "tk" }
          FetchResult.otherErr)).loading = false) ∧
    (truthy ({ initialWorld with authToken := some "tk" } : World).authToken = true →
      (∃ s ∈ (fetchProtectedData { initialWorld with authToken := some "tk" }
          FetchResult.otherErr).states, s.loading = true) ∧
      (runFinal { initialWorld with authToken := some "tk" }
        (fetchProtectedData { initialWorld with authToken := some "tk" }
          FetchResult.otherErr)).loading = false)) :=
  ⟨by decide, by decide,
    loading_reset_on_completion { initialWorld with authToken := some "tk" }
      FetchResult.otherErr (FetchResult.axiosErr "e" (some 401)) FetchResult.otherErr
      FetchResult.otherErr FetchResult.otherErr (some "tk")⟩

/-- C4: when the `/auth/user` request made by `fetchUserInfo` fails as an
AxiosError with status 401, the local logout runs: auth token, user info and
protected data end null and both localStorage keys are removed; when it fails
with any other status, token, user info, protected data and localStorage are
unchanged and no request to `/auth/logout` is issued. -/
theorem user_lookup_401_logout (w : World) (tok : Option String) (m : String)
    (st : Option Nat) (rL : FetchResult Unit)
    (htok : truthy (if truthy tok then tok else w.authToken) = true) :
    (st = some 401 →
      (runFinal w (fetchUserInfo w tok (FetchResult.axiosErr m st) rL)).authToken = none ∧
      (runFinal w (fetchUserInfo w tok (FetchResult.axiosErr m st) rL)).userInfo = none ∧
      (runFinal w (fetchUserInfo w tok (FetchResult.axiosErr m st) rL)).protectedData = none ∧
      getItem (runFinal w (fetchUserInfo w tok (FetchResult.axiosErr m st) rL)).storage
        "auth_token" = none ∧
      getItem (runFinal w (fetchUserInfo w tok (FetchResult.axiosErr m st) rL)).storage
        "session_id" = none) ∧
    (st ≠ some 401 →
      (runFinal w (fetchUserInfo w tok (FetchResult.axiosErr m st) rL)).authToken = w.authToken ∧
      (runFinal w (fetchUserInfo w tok (FetchResult.axiosErr m st) rL)).userInfo = w.userInfo ∧
      (runFinal w (fetchUserInfo w tok (FetchResult.axiosErr m st) rL)).protectedData =
        w.protectedData ∧
      (runFinal w (fetchUserInfo w tok (FetchResult.axiosErr m st) rL)).storage = w.storage ∧
      ∀ rq ∈ (fetchUserInfo w tok (FetchResult.axiosErr m st) rL).requests,
        rq.url ≠ API_BASE_URL ++ "/auth/logout") := by
  constructor
  · intro h401
    subst h401
    refine ⟨?_, ?_, ?_, ?_, ?_⟩ <;>
      simp [fetchUserInfo, handleLogout, htok, runFinal]
    · rw [getItem_removeItem_ne _ _ _ (by decide), getItem_removeItem_self]
    · rw [getItem_removeItem_self]
  · intro hne
    have h401 : (st == some 401) = false := by
      simp
      exact hne
    refine ⟨?_, ?_, ?_, ?_, ?_⟩ <;>
      simp [fetchUserInfo, htok, h401, runFinal]
    intro h
    exact absurd h (by decide)

/-- A concrete logged-in world used to exercise the 401 theorem. -/
def wFour : World :=
  { initialWorld with
    authToken := some "tk",
    userInfo := some { email := "a@b.c", name := "A", picture := none,
                       authenticated := true, token_issuer := none },
    storage := [("auth_token", "tk"), ("session_id", "s")] }

theorem user_lookup_401_logout_witness :
    truthy (if truthy none then none else wFour.authToken) = true ∧
    ((some 401 = some 401 →
      (runFinal wFour (fetchUserInfo wFour none
        (FetchResult.axiosErr "Unauthorized" (some 401)) (FetchResult.ok ()))).authToken = none ∧
      (runFinal wFour (fetchUserInfo wFour none
        (FetchResult.axiosErr "Unauthorized" (some 401)) (FetchResult.ok ()))).userInfo = none ∧
      (runFinal wFour (fetchUserInfo wFour none
        (FetchResult.axiosErr "Unauthorized" (some 401)) (FetchResult.ok ()))).protectedData = none ∧
      getItem (runFinal wFour (fetchUserInfo wFour none
        (FetchResult.axiosErr "Unauthorized" (some 401)) (FetchResult.ok ()))).storage
        "auth_token" = none ∧
      getItem (runFinal wFour (fetchUserInfo wFour none
        (FetchResult.axiosErr "Unauthorized" (some 401)) (FetchResult.ok ()))).storage
        "session_id" = none) ∧
    (some 401 ≠ some 401 →
      (runFinal wFour (fetchUserInfo wFour none
        (FetchResult.axiosErr "Unauthorized" (some 401)) (FetchResult.ok ()))).authToken =
        wFour.authToken ∧
      (runFinal wFour (fetchUserInfo wFour none
        (FetchResult.axiosErr "Unauthorized" (some 401)) (FetchResult.ok ()))).userInfo =
        wFour.userInfo ∧
      (runFinal wFour (fetchUserInfo wFour none
        (FetchResult.axiosErr "Unauthorized" (some 401)) (FetchResult.ok ()))).protectedData =
        wFour.protectedData ∧
      (runFinal wFour (fetchUserInfo wFour none
        (FetchResult.axiosErr "Unauthorized" (some 401)) (FetchResult.ok ()))).storage =
        wFour.storage ∧
      ∀ rq ∈ (fetchUserInfo wFour none
        (FetchResult.axiosErr "Unauthorized" (some 401)) (FetchResult.ok ())).requests,
        rq.url ≠ API_BASE_URL ++ "/auth/logout")) :=
  ⟨by decide, user_lookup_401_logout wFour none "Unauthorized" (some 401)
    (FetchResult.ok ()) (by decide)⟩

/-- C2 counterexample: with the query string `?token=` the URL carries a
`token` parameter (with empty value), yet `checkAuthStatus` stores nothing,
sets no in-memory token, and does not strip the query: the guard
`if (tokenFromUrl)` treats the empty string as absent. -/
theorem url_empty_token_param_ignored :
    getItem ({ initialWorld with query := [("token", "")] } : World).query "token" = some "" ∧
    (checkAuthStatusLocal { initialWorld with query := [("token", "")] }).1.authToken = none ∧
    getItem (checkAuthStatusLocal { initialWorld with query := [("token", "")] }).1.storage
      "auth_token" = none ∧
    (checkAuthStatusLocal { initialWorld with query := [("token", "")] }).1.query =
      [("token", "")] :=
  ⟨rfl, rfl, rfl, rfl⟩

/-- C2 (amended: the `token` parameter must have a nonempty value): on a page
load whose query string carries `token` with a nonempty value, the
auth-status check sets it as the in-memory token, stores it under the
`auth_token` localStorage key, and replaces the URL with the bare pathname. -/
theorem url_token_persisted_and_stripped (w : World) (t : String) (ht : t ≠ "")
    (hq : getItem w.query "token" = some t) :
    (checkAuthStatusLocal w).1.authToken = some t ∧
    getItem (checkAuthStatusLocal w).1.storage "auth_token" = some t ∧
    (checkAuthStatusLocal w).1.query = [] ∧
    (checkAuthStatusLocal w).1.pathname = w.pathname := by
  have htr : truthy (some t) = true := by simp [truthy, ht]
  by_cases hs : truthy (getItem w.query "session") = true
  · simp [checkAuthStatusLocal, hq, htr, hs]
    rw [getItem_setItem_ne _ _ _ _ (by decide), getItem_setItem_self]
  · simp [checkAuthStatusLocal, hq, htr, hs]
    rw [getItem_setItem_self]

/-- A concrete post-redirect world: token and session in the URL, a stale
token in storage. -/
def wRedirect : World :=
  { initialWorld with
    pathname := "/home",
    query := [("token", "abc"), ("session", "s1")],
    storage := [("auth_token", "old")] }

theorem url_token_persisted_and_stripped_witness :
    "abc" ≠ "" ∧ getItem wRedirect.query "token" = some "abc" ∧
    ((checkAuthStatusLocal wRedirect).1.authToken = some "abc" ∧
      getItem (checkAuthStatusLocal wRedirect).1.storage "auth_token" = some "abc" ∧
      (checkAuthStatusLocal wRedirect).1.query = [] ∧
      (checkAuthStatusLocal wRedirect).1.pathname = wRedirect.pathname) :=
  ⟨by decide, by decide,
    url_token_persisted_and_stripped wRedirect "abc" (by decide) (by decide)⟩

/-- C6 counterexample: with the query string `?session=s1` and no `token`
parameter, the session id is not persisted — in fact `checkAuthStatus`
changes nothing at all, because the session write sits inside the
`if (tokenFromUrl)` branch. -/
theorem session_param_without_token_ignored :
    getItem ({ initialWorld with query := [("session", "s1")] } : World).query "session" =
      some "s1" ∧
    getItem (checkAuthStatusLocal { initialWorld with query := [("session", "s1")] }).1.storage
      "session_id" = none ∧
    (checkAuthStatusLocal { initialWorld with query := [("session", "s1")] }).1 =
      { initialWorld with query := [("session", "s1")] } :=
  ⟨rfl, rfl, rfl⟩

/-- C6 (amended: the query must also carry a `token` parameter with a
nonempty value, and the session value must be nonempty): then the session id
from the URL is persisted under the `session_id` localStorage key. -/
theorem session_persisted_alongside_token (w : World) (t sv : String) (ht : t ≠ "")
    (hs : sv ≠ "") (hq : getItem w.query "token" = some t)
    (hqs : getItem w.query "session" = some sv) :
    getItem (checkAuthStatusLocal w).1.storage "session_id" = some sv := by
  have htr : truthy (some t) = true := by simp [truthy, ht]
  have hsr : truthy (some sv) = true := by simp [truthy, hs]
  simp [checkAuthStatusLocal, hq, hqs, htr, hsr, getItem_setItem_self]

theorem session_persisted_alongside_token_witness :
    "abc" ≠ "" ∧ "s1" ≠ "" ∧ getItem wRedirect.query "token" = some "abc" ∧
    getItem wRedirect.query "session" = some "s1" ∧
    getItem (checkAuthStatusLocal wRedirect).1.storage "session_id" = some "s1" :=
  ⟨by decide, by decide, by decide, by decide,
    session_persisted_alongside_token wRedirect "abc" "s1" (by decide) (by decide)
      (by decide) (by decide)⟩

/-- C7 counterexample: with no `token` query parameter and the empty string
stored under `auth_token`, no identity fetch is triggered and no in-memory
token is set: `if (storedToken)` treats the empty string as absent. -/
theorem stored_empty_token_no_identity_fetch :
    getItem ({ initialWorld with storage := [("auth_token", "")] } : World).query "token" =
      none ∧
    getItem ({ initialWorld with storage := [("auth_token", "")] } : World).storage
      "auth_token" = some "" ∧
    (checkAuthStatus { initialWorld with storage := [("auth_token", "")] }
      FetchResult.otherErr FetchResult.otherErr).requests = [] ∧
    (runFinal { initialWorld with storage := [("auth_token", "")] }
      (checkAuthStatus { initialWorld with storage := [("auth_token", "")] }
        FetchResult.otherErr FetchResult.otherErr)).authToken = none :=
  ⟨rfl, rfl, rfl, rfl⟩

/-- C7 (amended: the stored token must be nonempty): on a page load with no
`token` query parameter and a nonempty token stored under `auth_token`, the
check sets the stored token as the in-memory token and triggers the identity
fetch, a GET of `/auth/user` carrying the stored token as bearer. -/
theorem stored_token_triggers_identity_fetch (w : World) (t : String)
    (rU : FetchResult UserInfo) (rL : FetchResult Unit) (ht : t ≠ "")
    (hq : getItem w.query "token" = none)
    (hst : getItem w.storage "auth_token" = some t) :
    (∃ s ∈ (checkAuthStatus w rU rL).states, s.authToken = some t) ∧
    ({ method := "GET", url := API_BASE_URL ++ "/auth/user", bearer := some t } : Request)
      ∈ (checkAuthStatus w rU rL).requests := by
  have htr : truthy (some t) = true := by simp [truthy, ht]
  have hloc : checkAuthStatusLocal w = ({ w with authToken := some t }, some t) := by
    simp [checkAuthStatusLocal, hq, hst, htr, truthy, ht]
  constructor
  · exact ⟨{ w with authToken := some t }, by simp [checkAuthStatus, hloc], rfl⟩
  · cases rU with
    | ok d => simp [checkAuthStatus, hloc, fetchUserInfo, htr]
    | axiosErr m st =>
      by_cases h401 : (st == some 401) = true
      · simp [checkAuthStatus, hloc, fetchUserInfo, htr, h401]
      · simp [checkAuthStatus, hloc, fetchUserInfo, htr, h401]
    | otherErr => simp [checkAuthStatus, hloc, fetchUserInfo, htr]

/-- A concrete returning-visitor world: empty query, a stored token. -/
def wStored : World :=
  { initialWorld with storage := [("auth_token", "tok7")] }

/-- A concrete identity payload. -/
def uA : UserInfo :=
  { email := "a@b.c", name := "A", picture := none, authenticated := true, token_issuer := none }

theorem stored_token_triggers_identity_fetch_witness :
    "tok7" ≠ "" ∧ getItem wStored.query "token" = none ∧
    getItem wStored.storage "auth_token" = some "tok7" ∧
    ((∃ s ∈ (checkAuthStatus wStored (FetchResult.ok uA)
        (FetchResult.ok ())).states, s.authToken = some "tok7") ∧
      ({ method := "GET", url := API_BASE_URL ++ "/auth/user", bearer := some "tok7" } : Request)
        ∈ (checkAuthStatus wStored (FetchResult.ok uA) (FetchResult.ok ())).requests) :=
  ⟨by decide, by decide, by decide,
    stored_token_triggers_identity_fetch wStored "tok7" (FetchResult.ok uA)
      (FetchResult.ok ()) (by decide) (by decide) (by decide)⟩

/-- A concrete world with an empty-valued `token` query parameter and a
different stored token. -/
def wEmptyUrlTok : World :=
  { initialWorld with
    query := [("token", "")],
    storage := [("auth_token", "abc")] }

/-- C8 counterexample: with the query string `?token=` (empty value) and a
different token "abc" stored, the URL token does not take precedence: the
stored branch runs, the identity fetch carries the stored token, and the
stored value is not overwritten. -/
theorem empty_url_token_no_precedence :
    getItem wEmptyUrlTok.query "token" = some "" ∧
    getItem wEmptyUrlTok.storage "auth_token" = some "abc" ∧
    (checkAuthStatus wEmptyUrlTok FetchResult.otherErr FetchResult.otherErr).requests =
      [{ method := "GET", url := API_BASE_URL ++ "/auth/user", bearer := some "abc" }] ∧
    getItem (runFinal wEmptyUrlTok
      (checkAuthStatus wEmptyUrlTok
        FetchResult.otherErr FetchResult.otherErr)).storage "auth_token" = some "abc" :=
  ⟨rfl, rfl, rfl, rfl⟩

/-- C8 (amended: the URL `token` value must be nonempty): then the URL token
takes precedence over a different stored token: it overwrites the stored
value, the identity fetch carries the URL token as bearer, and no request of
the run carries the stored token. -/
theorem url_token_precedence_over_stored (w : World) (t t' : String)
    (rU : FetchResult UserInfo) (rL : FetchResult Unit) (ht : t ≠ "")
    (hq : getItem w.query "token" = some t)
    (hst : getItem w.storage "auth_token" = some t') (hne : t' ≠ t) :
    getItem (checkAuthStatusLocal w).1.storage "auth_token" = some t ∧
    ({ method := "GET", url := API_BASE_URL ++ "/auth/user", bearer := some t } : Request)
      ∈ (checkAuthStatus w rU rL).requests ∧
    (∀ rq ∈ (checkAuthStatus w rU rL).requests, rq.bearer ≠ some t') := by
  have htr : truthy (some t) = true := by simp [truthy, ht]
  have hbt : (some t : Option String) ≠ some t' := by
    intro h
    exact hne (Option.some.inj h).symm
  have hloc : (checkAuthStatusLocal w).2 = some t ∧
      (checkAuthStatusLocal w).1.authToken = some t := by
    by_cases hs : truthy (getItem w.query "session") = true
    · simp [checkAuthStatusLocal, hq, htr, hs]
    · simp [checkAuthStatusLocal, hq, htr, hs]
  obtain ⟨h2, h1⟩ := hloc
  have hrun : checkAuthStatus w rU rL =
      { states := (checkAuthStatusLocal w).1 ::
          (fetchUserInfo (checkAuthStatusLocal w).1 (some t) rU rL).states,
        requests := (fetchUserInfo (checkAuthStatusLocal w).1 (some t) rU rL).requests } := by
    simp [checkAuthStatus]
    rcases hcl : checkAuthStatusLocal w with ⟨w1, otok⟩
    rw [hcl] at h2
    simp at h2
    subst h2
    simp
  refine ⟨?_, ?_, ?_⟩
  · by_cases hs : truthy (getItem w.query "session") = true
    · simp [checkAuthStatusLocal, hq, htr, hs]
      rw [getItem_setItem_ne _ _ _ _ (by decide), getItem_setItem_self]
    · simp [checkAuthStatusLocal, hq, htr, hs]
      rw [getItem_setItem_self]
  · rw [hrun]
    cases rU with
    | ok d => simp [fetchUserInfo, htr]
    | axiosErr m st =>
      by_cases h401 : (st == some 401) = true
      · simp [fetchUserInfo, htr, h401]
      · simp [fetchUserInfo, htr, h401]
    | otherErr => simp [fetchUserInfo, htr]
  · rw [hrun]
    intro rq hrq
    cases rU with
    | ok d =>
      simp [fetchUserInfo, htr] at hrq
      simp [hrq, hbt]
    | axiosErr m st =>
      by_cases h401 : (st == some 401) = true
      · simp [fetchUserInfo, htr, h401, handleLogout, h1, List.mem_cons] at hrq
        rcases hrq with h | h <;> simp [h, hbt, htr]
      · simp [fetchUserInfo, htr, h401] at hrq
        simp [hrq, hbt]
    | otherErr =>
      simp [fetchUserInfo, htr] at hrq
      simp [hrq, hbt]

theorem url_token_precedence_over_stored_witness :
    "abc" ≠ "" ∧ getItem wRedirect.query "token" = some "abc" ∧
    getItem wRedirect.storage "auth_token" = some "old" ∧ "old" ≠ "abc" ∧
    (getItem (checkAuthStatusLocal wRedirect).1.storage "auth_token" = some "abc" ∧
      ({ method := "GET", url := API_BASE_URL ++ "/auth/user", bearer := some "abc" } : Request)
        ∈ (checkAuthStatus wRedirect (FetchResult.axiosErr "boom" (some 401))
          (FetchResult.ok ())).requests ∧
      (∀ rq ∈ (checkAuthStatus wRedirect (FetchResult.axiosErr "boom" (some 401))
        (FetchResult.ok ())).requests, rq.bearer ≠ some "old")) :=
  ⟨by decide, by decide, by decide, by decide,
    url_token_precedence_over_stored wRedirect "abc" "old"
      (FetchResult.axiosErr "boom" (some 401)) (FetchResult.ok ())
      (by decide) (by decide) (by decide) (by decide)⟩

/-- The error message a failed call produces under the given catch-block
message, mirroring the `err instanceof AxiosError` dichotomy; `none` for a
successful call. -/
def failText (pre : String) {α : Type} : FetchResult α → Option String
  | FetchResult.ok _ => none
  | FetchResult.axiosErr m _ => some (pre ++ m)
  | FetchResult.otherErr => some "An unexpected error occurred"

/-- C5 counterexample: a failing logout run in which no state ever carries an
error message and the final error is null — `handleLogout` catches the
failure and only logs it, so a logout failure does not surface as a textual
error message. -/
theorem logout_failure_surfaces_no_error :
    ((handleLogout { initialWorld with authToken := some "tk" }
      (FetchResult.axiosErr "Network Error" none)).states.all
        (fun s => s.error == none)) = true ∧
    (runFinal { initialWorld with authToken := some "tk" }
      (handleLogout { initialWorld with authToken := some "tk" }
        (FetchResult.axiosErr "Network Error" none))).error = none :=
  ⟨rfl, rfl⟩

/-- C5 (amended: logout is excluded — its failures are only logged): every
failure of the info fetch, the user lookup (when a truthy token is in use),
the login initiation and the protected-data fetch (when the state token is
truthy) sets the error display to the single catch-block message (which, for
the info fetch, login and protected fetch, and for non-401 user lookups, is
also the final error), each operation issues its request exactly once (no
retry), and a failing logout run ends with no error message. -/
theorem failures_surface_single_error (w : World) (tok : Option String)
    (rA : FetchResult ApiInfo) (rU : FetchResult UserInfo)
    (rG : FetchResult AuthResponse) (rP : FetchResult ProtectedData)
    (rL rL2 : FetchResult Unit) (msgA msgU msgG msgP : String)
    (hA : failText "Failed to fetch API info: " rA = some msgA)
    (hU : failText "Failed to fetch user info: " rU = some msgU)
    (hG : failText "Failed to initiate login: " rG = some msgG)
    (hP : failText "Failed to fetch protected data: " rP = some msgP) :
    (errorSurfaced (fetchApiInfo w rA) msgA ∧
      (runFinal w (fetchApiInfo w rA)).error = some msgA ∧
      (fetchApiInfo w rA).requests.length = 1) ∧
    (truthy (if truthy tok then tok else w.authToken) = true →
      errorSurfaced (fetchUserInfo w tok rU rL) msgU ∧
      ((fetchUserInfo w tok rU rL).requests.filter
        (fun rq => rq.url == API_BASE_URL ++ "/auth/user")).length = 1) ∧
    (errorSurfaced (handleLogin w rG) msgG ∧
      (runFinal w (handleLogin w rG)).error = some msgG ∧
      (handleLogin w rG).requests.length = 1) ∧
    (truthy w.authToken = true →
      errorSurfaced (fetchProtectedData w rP) msgP ∧
      (runFinal w (fetchProtectedData w rP)).error = some msgP ∧
      (fetchProtectedData w rP).requests.length = 1) ∧
    ((runFinal w (handleLogout w rL2)).error = none ∧
      (handleLogout w rL2).requests.length = 1) := by
  have hul : (API_BASE_URL ++ "/auth/logout" == API_BASE_URL ++ "/auth/user") = false := by
    decide
  refine ⟨?_, ?_, ?_, ?_, ?_⟩
  · cases rA with
    | ok d => simp [failText] at hA
    | axiosErr m st =>
      simp [failText] at hA
      subst hA
      exact ⟨by simp [errorSurfaced, fetchApiInfo], by simp [fetchApiInfo, runFinal],
        by simp [fetchApiInfo]⟩
    | otherErr =>
      simp [failText] at hA
      subst hA
      exact ⟨by simp [errorSurfaced, fetchApiInfo], by simp [fetchApiInfo, runFinal],
        by simp [fetchApiInfo]⟩
  · intro htok
    cases rU with
    | ok d => simp [failText] at hU
    | axiosErr m st =>
      simp [failText] at hU
      subst hU
      by_cases h401 : (st == some 401) = true
      · refine ⟨by simp [errorSurfaced, fetchUserInfo, htok, h401, handleLogout], ?_⟩
        simp [fetchUserInfo, htok, h401, handleLogout, List.filter_cons, hul]
      · refine ⟨by simp [errorSurfaced, fetchUserInfo, htok, h401], ?_⟩
        simp [fetchUserInfo, htok, h401, List.filter_cons]
    | otherErr =>
      simp [failText] at hU
      subst hU
      refine ⟨by simp [errorSurfaced, fetchUserInfo, htok], ?_⟩
      simp [fetchUserInfo, htok, List.filter_cons]
  · cases rG with
    | ok d => simp [failText] at hG
    | axiosErr m st =>
      simp [failText] at hG
      subst hG
      exact ⟨by simp [errorSurfaced, handleLogin], by simp [handleLogin, runFinal],
        by simp [handleLogin]⟩
    | otherErr =>
      simp [failText] at hG
      subst hG
      exact ⟨by simp [errorSurfaced, handleLogin], by simp [handleLogin, runFinal],
        by simp [handleLogin]⟩
  · intro htk
    cases rP with
    | ok d => simp [failText] at hP
    | axiosErr m st =>
      simp [failText] at hP
      subst hP
      exact ⟨by simp [errorSurfaced, fetchProtectedData, htk],
        by simp [fetchProtectedData, htk, runFinal], by simp [fetchProtectedData, htk]⟩
    | otherErr =>
      simp [failText] at hP
      subst hP
      exact ⟨by simp [errorSurfaced, fetchProtectedData, htk],
        by simp [fetchProtectedData, htk, runFinal], by simp [fetchProtectedData, htk]⟩
  · exact ⟨by simp [handleLogout, runFinal], by simp [handleLogout]⟩

/-- A concrete logged-in world for exercising the failure-message theorem. -/
def wFive : World := { initialWorld with authToken := some "tk5" }

theorem failures_surface_single_error_witness :
    failText "Failed to fetch API info: " (FetchResult.axiosErr "ea" none : FetchResult ApiInfo) =
      some "Failed to fetch API info: ea" ∧
    failText "Failed to fetch user info: "
      (FetchResult.axiosErr "eu" (some 401) : FetchResult UserInfo) =
      some "Failed to fetch user info: eu" ∧
    failText "Failed to initiate login: "
      (FetchResult.axiosErr "eg" none : FetchResult AuthResponse) =
      some "Failed to initiate login: eg" ∧
    failText "Failed to fetch protected data: "
      (FetchResult.axiosErr "ep" (some 500) : FetchResult ProtectedData) =
      some "Failed to fetch protected data: ep" ∧
    ((errorSurfaced (fetchApiInfo wFive (FetchResult.axiosErr "ea" none))
        "Failed to fetch API info: ea" ∧
      (runFinal wFive (fetchApiInfo wFive (FetchResult.axiosErr "ea" none))).error =
        some "Failed to fetch API info: ea" ∧
      (fetchApiInfo wFive (FetchResult.axiosErr "ea" none)).requests.length = 1) ∧
    (truthy (if truthy (some "tk5") then some "tk5" else wFive.authToken) = true →
      errorSurfaced (fetchUserInfo wFive (some "tk5")
        (FetchResult.axiosErr "eu" (some 401)) (FetchResult.ok ()))
        "Failed to fetch user info: eu" ∧
      ((fetchUserInfo wFive (some "tk5") (FetchResult.axiosErr "eu" (some 401))
        (FetchResult.ok ())).requests.filter
        (fun rq => rq.url == API_BASE_URL ++ "/auth/user")).length = 1) ∧
    (errorSurfaced (handleLogin wFive (FetchResult.axiosErr "eg" none))
        "Failed to initiate login: eg" ∧
      (runFinal wFive (handleLogin wFive (FetchResult.axiosErr "eg" none))).error =
        some "Failed to initiate login: eg" ∧
      (handleLogin wFive (FetchResult.axiosErr "eg" none)).requests.length = 1) ∧
    (truthy wFive.authToken = true →
      errorSurfaced (fetchProtectedData wFive (FetchResult.axiosErr "ep" (some 500)))
        "Failed to fetch protected data: ep" ∧
      (runFinal wFive (fetchProtectedData wFive
        (FetchResult.axiosErr "ep" (some 500)))).error =
        some "Failed to fetch protected data: ep" ∧
      (fetchProtectedData wFive (FetchResult.axiosErr "ep" (some 500))).requests.length = 1) ∧
    ((runFinal wFive (handleLogout wFive (FetchResult.axiosErr "el" none))).error = none ∧
      (handleLogout wFive (FetchResult.axiosErr "el" none)).requests.length = 1)) :=
  ⟨rfl, rfl, rfl, rfl,
    failures_surface_single_error wFive (some "tk5")
      (FetchResult.axiosErr "ea" none) (FetchResult.axiosErr "eu" (some 401))
      (FetchResult.axiosErr "eg" none) (FetchResult.axiosErr "ep" (some 500))
      (FetchResult.ok ()) (FetchResult.axiosErr "el" none)
      "Failed to fetch API info: ea" "Failed to fetch user info: eu"
      "Failed to initiate login: eg" "Failed to fetch protected data: ep"
      rfl rfl rfl rfl⟩
